import Mathlib

/-!
# Krita (.kra) sniffing and loading

A shallow embedding of `source/blender/imbuf/intern/kra/kra_api.c`.

The archive reader (libzip), the allocator and the PNG decoder are external
collaborators.  Their answers are carried by the records `ZipFile`, `Zip`,
`Source` and `Env`; the three functions of the file
(`has_krita_mimetype`, `imb_is_a_krita`, `imb_load_krita`) are translated
statement by statement and return, next to their C result, the list of
external calls they made.

Bytes are natural numbers, handles and pointers are natural numbers, a `NULL`
pointer is `none`.
-/

namespace Kra

/-! ## Constants of the file -/

/-- The macro `MIMETYPE_LEN`. -/
def MIMETYPE_LEN : Nat := 19

/-- The array `expected_mimetype[MIMETYPE_LEN + 1] = "application/x-krita"`:
the nineteen characters followed by the terminating NUL. -/
def expected_mimetype : List Nat :=
  [97, 112, 112, 108, 105, 99, 97, 116, 105, 111, 110, 47, 120, 45, 107, 114, 105, 116, 97, 0]

/-- The constant `mergedimagepng_name`. -/
def mergedimagepng_name : String := "mergedimage.png"

/-! ## External collaborators -/

/-- An entry stream (`zip_file_t`): the decompressed bytes it can deliver and,
when `fault = some k`, the position after which reading stops with an error. -/
structure ZipFile where
  handle : Nat
  content : List Nat
  fault : Option Nat
  deriving DecidableEq, Repr

/-- The call `zip_fread(file, buf, nbytes)`: the returned count (`-1` on error) and the
bytes stored at the start of `buf`.  At most `nbytes` bytes are stored; a stream
shorter than `nbytes` gives a short read. -/
def zip_fread (file : ZipFile) (nbytes : Nat) : Int × List Nat :=
  let got := file.content.take nbytes
  match file.fault with
  | none => ((got.length : Int), got)
  | some k => if k ≤ got.length then (-1, got.take k) else ((got.length : Int), got)

/-- An opened archive (`zip_t`).  `stat name` is the answer of
`zip_stat(zip, name, 0, &stat)`: `none` for the status `-1`, otherwise `stat.size`
(a `zip_uint64_t`).  `fopen name` is the answer of `zip_fopen(zip, name, 0)`. -/
structure Zip where
  handle : Nat
  stat : String → Option Nat
  fopen : String → Option ZipFile

/-- An archive source (`zip_source_t`); `archive` is the answer of
`zip_open_from_source(source, ZIP_RDONLY, &error)`. -/
structure Source where
  handle : Nat
  archive : Option Zip

/-- Modelled from the spec: the file-type enumeration of `IMB_imbuf_types.h` is not among
the sources; the tag of this container format is kept apart from every other tag. -/
inductive FileType where
  | IMB_FTYPE_KRA
  | IMB_FTYPE_PNG
  | IMB_FTYPE_NONE
  deriving DecidableEq, Repr

/-- Modelled from the spec: `struct ImBuf` of `IMB_imbuf_types.h` is not among the sources;
a decoded image is its format tag `ftype` together with its remaining fields. -/
structure ImBuf where
  x : Nat
  y : Nat
  rect : List Nat
  ftype : FileType
  deriving DecidableEq, Repr

/-- The environment of one call: `zip_source_buffer_create(mem, size, 0, &error)`,
`malloc(n)` and `imb_loadpng(buf, size, flags, colorspace)` (the decoder sees the bytes
stored in `buf`). -/
structure Env where
  zip_source_buffer_create : List Nat → Nat → Option Source
  malloc : Nat → Option Nat
  imb_loadpng : List Nat → Nat → Int → Nat → Option ImBuf

/-- One external call, with its arguments and, for the acquiring calls, its result. -/
inductive Call where
  | zip_source_buffer_create (ret : Option Nat)
  | zip_open_from_source (source : Nat) (ret : Option Nat)
  | zip_stat (zip : Nat) (name : String) (ret : Option Nat)
  | zip_fopen (zip : Nat) (name : String) (ret : Option Nat)
  | malloc (n : Nat) (ret : Option Nat)
  | zip_fread (file : Nat) (nbytes : Nat) (ret : Int)
  | imb_loadpng (buf : List Nat) (size : Nat) (flags : Int) (colorspace : Nat)
  | free (ptr : Option Nat)
  | zip_fclose (file : Nat)
  | zip_close (zip : Nat)
  | zip_source_close (source : Nat)
  deriving DecidableEq, Repr

/-! ## C library and integer conversions -/

/-- The library function `strcmp` on two byte arrays: the bytes are compared as unsigned
values until they differ or a NUL is met.  A position past the end of an array reads
as NUL. -/
def strcmp : List Nat → List Nat → Int
  | [], [] => 0
  | [], b :: _ => -(b : Int)
  | a :: _, [] => (a : Int)
  | a :: as, b :: bs =>
    if a ≠ b then (a : Int) - (b : Int) else if a = 0 then 0 else strcmp as bs

/-- Number of positions `strcmp` examines in its two arguments. -/
def strcmp_examined : List Nat → List Nat → Nat
  | a :: as, b :: bs =>
    if a ≠ b then 1 else if a = 0 then 1 else 1 + strcmp_examined as bs
  | _, _ => 1

/-- Conversion of a 64-bit count to the 32-bit `int` it is stored in. -/
def to_int32 (v : Int) : Int := (v + 2 ^ 31) % 2 ^ 32 - 2 ^ 31

/-- Conversion of an `int` to `zip_uint64_t` for a comparison with an unsigned 64-bit value. -/
def to_uint64 (v : Int) : Nat := (v % 2 ^ 64).toNat

/-! ## has_krita_mimetype -/

/-- The array `data` of `has_krita_mimetype` after
`char data[MIMETYPE_LEN + 1] = {0}; zip_fread(file, data, MIMETYPE_LEN);`. -/
def mimetype_data (file : ZipFile) : List Nat :=
  let data := List.replicate (MIMETYPE_LEN + 1) 0
  let got := (zip_fread file MIMETYPE_LEN).2
  got ++ data.drop got.length

/-- The function `has_krita_mimetype(zip)`: its result and its external calls. -/
def has_krita_mimetype (zip : Zip) : List Call × Bool :=
  match zip.fopen "mimetype" with
  | none => ([Call.zip_fopen zip.handle "mimetype" none], false)
  | some file =>
    let data := mimetype_data file
    let is_krita := strcmp data expected_mimetype != 0
    ([Call.zip_fopen zip.handle "mimetype" (some file.handle),
      Call.zip_fread file.handle MIMETYPE_LEN (zip_fread file MIMETYPE_LEN).1,
      Call.zip_fclose file.handle], is_krita)

/-! ## imb_is_a_krita -/

/-- A local variable: declared without initialiser and not yet assigned, or holding a value. -/
inductive Local (α : Type) where
  | indeterminate
  | value (v : α)

/-- How a call ends: it returns a value, or it has used the value of a local variable
that was never assigned. -/
inductive Outcome (α : Type) where
  | returned (v : α)
  | undefined
  deriving DecidableEq, Repr

/-- The label `finalize` of `imb_is_a_krita`: `if (zip != NULL) zip_close(zip);
if (source != NULL) zip_source_close(source); return is_a;`. -/
def is_a_finalize (zip : Local (Option Zip)) (source : Option Source) (is_a : Bool)
    (calls : List Call) : List Call × Outcome Bool :=
  match zip with
  | Local.indeterminate => (calls, Outcome.undefined)
  | Local.value zip =>
    let c1 := match zip with
      | some z => [Call.zip_close z.handle]
      | none => []
    let c2 := match source with
      | some s => [Call.zip_source_close s.handle]
      | none => []
    (calls ++ c1 ++ c2, Outcome.returned is_a)

/-- The function `imb_is_a_krita(mem, size)`.  The local `zip` is declared without
initialiser (`zip_t *zip;`) and first assigned by `zip_open_from_source`. -/
def imb_is_a_krita (env : Env) (mem : List Nat) (size : Nat) : List Call × Outcome Bool :=
  match env.zip_source_buffer_create mem size with
  | none =>
    is_a_finalize Local.indeterminate none false [Call.zip_source_buffer_create none]
  | some source =>
    match source.archive with
    | none =>
      is_a_finalize (Local.value none) (some source) false
        [Call.zip_source_buffer_create (some source.handle),
         Call.zip_open_from_source source.handle none]
    | some zip =>
      let r := has_krita_mimetype zip
      is_a_finalize (Local.value (some zip)) (some source) r.2
        ([Call.zip_source_buffer_create (some source.handle),
          Call.zip_open_from_source source.handle (some zip.handle)] ++ r.1)

/-! ## imb_load_krita -/

/-- The label `finalize` of `imb_load_krita`: `free(buf)` and the three guarded closes. -/
def load_finalize (buf : Option Nat) (file : Option ZipFile) (zip : Option Zip)
    (source : Option Source) : List Call :=
  [Call.free buf]
    ++ (match file with
        | some f => [Call.zip_fclose f.handle]
        | none => [])
    ++ (match zip with
        | some z => [Call.zip_close z.handle]
        | none => [])
    ++ (match source with
        | some s => [Call.zip_source_close s.handle]
        | none => [])

/-- The test `status != stat.size` after `status = zip_fread(file, buf, stat.size)`, where
`status` is an `int` and `stat.size` a `zip_uint64_t`: true when the read is rejected. -/
def read_count_rejected (ret : Int) (size : Nat) : Bool :=
  to_uint64 (to_int32 ret) != size

/-- The function `imb_load_krita(mem, size, flags, colorspace)`: its external calls and the
returned image (`none` for `NULL`).  All five locals are initialised to `NULL`. -/
def imb_load_krita (env : Env) (mem : List Nat) (size : Nat) (flags : Int) (colorspace : Nat) :
    List Call × Option ImBuf :=
  match env.zip_source_buffer_create mem size with
  | none =>
    ([Call.zip_source_buffer_create none] ++ load_finalize none none none none, none)
  | some source =>
    let t1 := [Call.zip_source_buffer_create (some source.handle)]
    match source.archive with
    | none =>
      (t1 ++ [Call.zip_open_from_source source.handle none]
          ++ load_finalize none none none (some source), none)
    | some zip =>
      let t2 := t1 ++ [Call.zip_open_from_source source.handle (some zip.handle)]
      match zip.stat mergedimagepng_name with
      | none =>
        (t2 ++ [Call.zip_stat zip.handle mergedimagepng_name none]
            ++ load_finalize none none (some zip) (some source), none)
      | some stat_size =>
        let t3 := t2 ++ [Call.zip_stat zip.handle mergedimagepng_name (some stat_size)]
        match zip.fopen mergedimagepng_name with
        | none =>
          (t3 ++ [Call.zip_fopen zip.handle mergedimagepng_name none]
              ++ load_finalize none none (some zip) (some source), none)
        | some file =>
          let t4 := t3 ++ [Call.zip_fopen zip.handle mergedimagepng_name (some file.handle)]
          match env.malloc stat_size with
          | none =>
            (t4 ++ [Call.malloc stat_size none]
                ++ load_finalize none (some file) (some zip) (some source), none)
          | some buf =>
            let t5 := t4 ++ [Call.malloc stat_size (some buf)]
            let rd := zip_fread file stat_size
            let t6 := t5 ++ [Call.zip_fread file.handle stat_size rd.1]
            if read_count_rejected rd.1 stat_size then
              (t6 ++ load_finalize (some buf) (some file) (some zip) (some source), none)
            else
              let t7 := t6 ++ [Call.imb_loadpng rd.2 stat_size flags colorspace]
              match env.imb_loadpng rd.2 stat_size flags colorspace with
              | none =>
                (t7 ++ load_finalize (some buf) (some file) (some zip) (some source), none)
              | some imbuf =>
                (t7 ++ load_finalize (some buf) (some file) (some zip) (some source),
                  some { imbuf with ftype := FileType.IMB_FTYPE_KRA })

/-! ## Specification-side definitions -/

/-- The comparison as the specification words it: an exact byte-for-byte match of the leading
`MIMETYPE_LEN` bytes of the buffer against the expected marker string. -/
def marker_bytes_match (data : List Nat) : Bool :=
  data.take MIMETYPE_LEN == expected_mimetype.take MIMETYPE_LEN

/-- The four kinds of resource a call acquires, each with its handle. -/
inductive Resource where
  | buffer (ptr : Nat)
  | stream (file : Nat)
  | archive (zip : Nat)
  | source (src : Nat)
  deriving DecidableEq, Repr

/-- Position of a resource kind in the release order of the specification:
extraction buffer, entry stream, archive handle, archive source. -/
def Resource.rank : Resource → Nat
  | Resource.buffer _ => 0
  | Resource.stream _ => 1
  | Resource.archive _ => 2
  | Resource.source _ => 3

/-- The resource a call hands out, when it succeeds in acquiring one. -/
def Call.acquires : Call → Option Resource
  | Call.zip_source_buffer_create (some s) => some (Resource.source s)
  | Call.zip_open_from_source _ (some z) => some (Resource.archive z)
  | Call.zip_fopen _ _ (some f) => some (Resource.stream f)
  | Call.malloc _ (some p) => some (Resource.buffer p)
  | _ => none

/-- The resource a call gives back; `free(NULL)` gives back nothing. -/
def Call.releases : Call → Option Resource
  | Call.free (some p) => some (Resource.buffer p)
  | Call.zip_fclose f => some (Resource.stream f)
  | Call.zip_close z => some (Resource.archive z)
  | Call.zip_source_close s => some (Resource.source s)
  | _ => none

/-- Resources acquired along a list of calls, in order. -/
def acquired (calls : List Call) : List Resource := calls.filterMap Call.acquires

/-- Resources released along a list of calls, in order. -/
def released (calls : List Call) : List Resource := calls.filterMap Call.releases

/-- Whether a call is one of the four clean-up calls. -/
def Call.is_cleanup : Call → Bool
  | Call.free _ => true
  | Call.zip_fclose _ => true
  | Call.zip_close _ => true
  | Call.zip_source_close _ => true
  | _ => false

/-- Whether, from the first clean-up call on, only clean-up calls follow. -/
def cleanup_last (calls : List Call) : Bool :=
  (calls.dropWhile (fun c => !c.is_cleanup)).all Call.is_cleanup

/-- Whether a call is an invocation of the decoder `imb_loadpng`. -/
def Call.is_decode : Call → Bool
  | Call.imb_loadpng _ _ _ _ => true
  | _ => false

/-- Number of decoder invocations along a list of calls. -/
def decoder_calls (calls : List Call) : Nat := calls.countP Call.is_decode

/-- One of the steps before the read fails: source creation, archive open, stat of
`mergedimage.png`, opening the entry, or allocating the extraction buffer. -/
def StepFails (env : Env) (mem : List Nat) (size : Nat) : Prop :=
  env.zip_source_buffer_create mem size = none
  ∨ (∃ source, env.zip_source_buffer_create mem size = some source ∧ source.archive = none)
  ∨ (∃ source zip, env.zip_source_buffer_create mem size = some source
      ∧ source.archive = some zip ∧ zip.stat mergedimagepng_name = none)
  ∨ (∃ source zip, env.zip_source_buffer_create mem size = some source
      ∧ source.archive = some zip ∧ zip.fopen mergedimagepng_name = none)
  ∨ (∃ source zip s, env.zip_source_buffer_create mem size = some source
      ∧ source.archive = some zip ∧ zip.stat mergedimagepng_name = some s
      ∧ env.malloc s = none)

/-- Every step before the read succeeds. -/
def StepsSucceed (env : Env) (mem : List Nat) (size : Nat) : Prop :=
  ∃ source zip s file buf, env.zip_source_buffer_create mem size = some source
    ∧ source.archive = some zip ∧ zip.stat mergedimagepng_name = some s
    ∧ zip.fopen mergedimagepng_name = some file ∧ env.malloc s = some buf

/-! ## Concrete inputs -/

/-- The nineteen bytes of "application/x-krita". -/
def krita_mimetype : List Nat :=
  [97, 112, 112, 108, 105, 99, 97, 116, 105, 111, 110, 47, 120, 45, 107, 114, 105, 116, 97]

/-- The nineteen bytes of "application/x-other". -/
def other_mimetype : List Nat :=
  [97, 112, 112, 108, 105, 99, 97, 116, 105, 111, 110, 47, 120, 45, 111, 116, 104, 101, 114]

/-- An archive with the two entries `mimetype` and `mergedimage.png`; `png_size` is the
decompressed size the archive declares for `mergedimage.png`. -/
def sample_zip (mimetype png : List Nat) (png_size : Nat) : Zip :=
  { handle := 2,
    stat := fun name =>
      if name = "mergedimage.png" then some png_size
      else if name = "mimetype" then some mimetype.length else none,
    fopen := fun name =>
      if name = "mimetype" then some { handle := 3, content := mimetype, fault := none }
      else if name = "mergedimage.png" then some { handle := 4, content := png, fault := none }
      else none }

/-- An environment in which the buffer opens as the archive `zip`, allocation succeeds and
the decoder accepts every non-empty input as a 10 by 10 image. -/
def sample_env (zip : Zip) : Env :=
  { zip_source_buffer_create := fun _ _ => some { handle := 1, archive := some zip },
    malloc := fun _ => some 5,
    imb_loadpng := fun buf _ _ _ =>
      if buf = [] then none
      else some { x := 10, y := 10, rect := buf, ftype := FileType.IMB_FTYPE_PNG } }

/-- An environment in which `zip_source_buffer_create` fails (it returns `NULL` when its
own allocation fails, or for a `NULL` buffer of non-zero size). -/
def no_source_env : Env :=
  { zip_source_buffer_create := fun _ _ => none,
    malloc := fun _ => some 5,
    imb_loadpng := fun _ _ _ _ => none }

/-- An archive without a `mergedimage.png` entry and without a `mimetype` entry. -/
def empty_zip : Zip :=
  { handle := 2, stat := fun _ => none, fopen := fun _ => none }

/-- A `mergedimage.png` of exactly 2^31 bytes. -/
def huge_png : List Nat := List.replicate (2 ^ 31) 0

/-- The first bytes of a ZIP local file header, standing for the caller's buffer. -/
def sample_mem : List Nat := [80, 75, 3, 4]

/-! ## The marker comparison -/

theorem strcmp_terminated_eq_zero_iff (e : List Nat) (he : ∀ x ∈ e, x ≠ 0) (d : List Nat) :
    strcmp d (e ++ [0]) = 0 ↔ d.take e.length = e ∧ d.getD e.length 0 = 0 := by
  induction e generalizing d with
  | nil =>
    cases d with
    | nil => simp [strcmp]
    | cons a as =>
      by_cases ha : a = 0
      · simp [strcmp, ha]
      · simp [strcmp, ha]
  | cons b e ih =>
    have hb : b ≠ 0 := he b (List.mem_cons_self b e)
    have he2 : ∀ x ∈ e, x ≠ 0 := fun x hx => he x (List.mem_cons_of_mem b hx)
    cases d with
    | nil => simp [strcmp, hb]
    | cons a as =>
      by_cases hab : a = b
      · subst hab
        simp [strcmp, hb, ih he2 as]
      · have hsub : (a : Int) - (b : Int) ≠ 0 := by omega
        simp [strcmp, hab, hsub]

theorem strcmp_examined_terminated_le (e : List Nat) (d : List Nat) :
    strcmp_examined d (e ++ [0]) ≤ e.length + 1 := by
  induction e generalizing d with
  | nil =>
    cases d with
    | nil => simp [strcmp_examined]
    | cons a as =>
      by_cases ha : a = 0
      · simp [strcmp_examined, ha]
      · simp [strcmp_examined, ha]
  | cons b e ih =>
    cases d with
    | nil => simp [strcmp_examined]
    | cons a as =>
      by_cases hab : a = b
      · subst hab
        by_cases ha : a = 0
        · simp [strcmp_examined, ha]
        · have := ih as
          simp [strcmp_examined, ha]
          omega
      · simp [strcmp_examined, hab]

theorem zip_fread_stored_length_le (file : ZipFile) (nbytes : Nat) :
    (zip_fread file nbytes).2.length ≤ nbytes := by
  unfold zip_fread
  cases file.fault with
  | none => simp
  | some k =>
    dsimp only
    split
    · simp only [List.length_take]
      omega
    · simp

theorem mimetype_data_length (file : ZipFile) :
    (mimetype_data file).length = MIMETYPE_LEN + 1 := by
  have h := zip_fread_stored_length_le file MIMETYPE_LEN
  simp only [mimetype_data, List.length_append, List.length_drop, List.length_replicate]
  omega

theorem mimetype_data_last (file : ZipFile) :
    (mimetype_data file).getD MIMETYPE_LEN 0 = 0 := by
  have h := zip_fread_stored_length_le file MIMETYPE_LEN
  simp only [mimetype_data, List.drop_replicate]
  rw [List.getD_append_right _ _ _ _ h]
  rw [List.getD_eq_getElem?_getD]
  simp [List.getElem?_replicate]
  split <;> simp

theorem expected_mimetype_split : expected_mimetype = krita_mimetype ++ [0] := by
  decide

theorem krita_mimetype_nonzero : ∀ x ∈ krita_mimetype, x ≠ 0 := by
  decide

theorem strcmp_mimetype_data_iff (file : ZipFile) :
    strcmp (mimetype_data file) expected_mimetype = 0
      ↔ marker_bytes_match (mimetype_data file) = true := by
  rw [expected_mimetype_split, strcmp_terminated_eq_zero_iff _ krita_mimetype_nonzero]
  have hlast := mimetype_data_last file
  have hlen : krita_mimetype.length = MIMETYPE_LEN := by decide
  have hexp : expected_mimetype.take MIMETYPE_LEN = krita_mimetype := by decide
  unfold marker_bytes_match
  rw [hlen, hexp, beq_iff_eq]
  exact ⟨fun h => h.1, fun h => ⟨h, hlast⟩⟩

theorem mimetype_data_leading_bytes (file : ZipFile) :
    mimetype_data file
      = mimetype_data
          { handle := file.handle, content := file.content.take MIMETYPE_LEN,
            fault := file.fault } := by
  simp [mimetype_data, zip_fread, List.take_take]

/-- The result of `has_krita_mimetype` on an archive whose `mimetype` entry opens: true
exactly when the leading bytes of the buffer do NOT match the marker. -/
theorem has_krita_mimetype_result (zip : Zip) (file : ZipFile)
    (hopen : zip.fopen "mimetype" = some file) :
    (has_krita_mimetype zip).2 = !marker_bytes_match (mimetype_data file) := by
  have h := strcmp_mimetype_data_iff file
  unfold has_krita_mimetype
  rw [hopen]
  by_cases hm : marker_bytes_match (mimetype_data file) = true
  · simp [hm, h.mpr hm]
  · have hs : strcmp (mimetype_data file) expected_mimetype ≠ 0 := fun hz => hm (h.mp hz)
    simp [hm, hs]

/-- The result of `imb_is_a_krita` once the archive is open: the clean-up runs and the
result of `has_krita_mimetype` is returned. -/
theorem imb_is_a_krita_of_open (env : Env) (mem : List Nat) (size : Nat) (source : Source)
    (zip : Zip) (hsrc : env.zip_source_buffer_create mem size = some source)
    (hzip : source.archive = some zip) :
    (imb_is_a_krita env mem size).2 = Outcome.returned (has_krita_mimetype zip).2 := by
  simp [imb_is_a_krita, hsrc, hzip, is_a_finalize]

/-- When the `mimetype` entry holds exactly the marker and reads without error, the
sniffer answers false. -/
theorem imb_is_a_krita_of_marker (env : Env) (mem : List Nat) (size : Nat) (source : Source)
    (zip : Zip) (file : ZipFile) (hsrc : env.zip_source_buffer_create mem size = some source)
    (hzip : source.archive = some zip) (hopen : zip.fopen "mimetype" = some file)
    (hcontent : file.content = krita_mimetype) (hfault : file.fault = none) :
    (imb_is_a_krita env mem size).2 = Outcome.returned false := by
  rw [imb_is_a_krita_of_open env mem size source zip hsrc hzip,
    has_krita_mimetype_result zip file hopen]
  have hdata : mimetype_data file = expected_mimetype := by
    simp only [mimetype_data, zip_fread, hcontent, hfault]
    decide
  rw [hdata]
  decide

/-- When the leading bytes of the buffer differ from the marker, the sniffer answers true. -/
theorem imb_is_a_krita_of_mismatch (env : Env) (mem : List Nat) (size : Nat) (source : Source)
    (zip : Zip) (file : ZipFile) (hsrc : env.zip_source_buffer_create mem size = some source)
    (hzip : source.archive = some zip) (hopen : zip.fopen "mimetype" = some file)
    (hdiff : marker_bytes_match (mimetype_data file) = false) :
    (imb_is_a_krita env mem size).2 = Outcome.returned true := by
  rw [imb_is_a_krita_of_open env mem size source zip hsrc hzip,
    has_krita_mimetype_result zip file hopen, hdiff]
  rfl

/-- When the archive does not open, the sniffer returns false. -/
theorem imb_is_a_krita_of_open_failure (env : Env) (mem : List Nat) (size : Nat)
    (source : Source) (hsrc : env.zip_source_buffer_create mem size = some source)
    (hzip : source.archive = none) :
    (imb_is_a_krita env mem size).2 = Outcome.returned false := by
  simp [imb_is_a_krita, hsrc, hzip, is_a_finalize]

/-- When the archive has no `mimetype` entry, the sniffer returns false. -/
theorem imb_is_a_krita_of_missing_entry (env : Env) (mem : List Nat) (size : Nat)
    (source : Source) (zip : Zip) (hsrc : env.zip_source_buffer_create mem size = some source)
    (hzip : source.archive = some zip) (hopen : zip.fopen "mimetype" = none) :
    (imb_is_a_krita env mem size).2 = Outcome.returned false := by
  rw [imb_is_a_krita_of_open env mem size source zip hsrc hzip]
  simp [has_krita_mimetype, hopen]

/-- When creating the archive source fails, the sniffer reaches `finalize` with `zip`
never assigned, whatever the buffer. -/
theorem imb_is_a_krita_of_source_failure (env : Env) (mem : List Nat) (size : Nat)
    (hsrc : env.zip_source_buffer_create mem size = none) :
    imb_is_a_krita env mem size
      = ([Call.zip_source_buffer_create none], Outcome.undefined) := by
  simp [imb_is_a_krita, hsrc, is_a_finalize]

/-- Once the archive source exists, the sniffer closes what it opened, in reverse order,
and returns. -/
theorem imb_is_a_krita_cleanup_of_source (env : Env) (mem : List Nat) (size : Nat)
    (source : Source) (hsrc : env.zip_source_buffer_create mem size = some source) :
    released (imb_is_a_krita env mem size).1 = (acquired (imb_is_a_krita env mem size).1).reverse
      ∧ ∃ b, (imb_is_a_krita env mem size).2 = Outcome.returned b := by
  cases hzip : source.archive with
  | none =>
    simp [imb_is_a_krita, hsrc, hzip, is_a_finalize, released, acquired, Call.releases,
      Call.acquires]
  | some zip =>
    cases hopen : zip.fopen "mimetype" with
    | none =>
      simp [imb_is_a_krita, hsrc, hzip, is_a_finalize, has_krita_mimetype, hopen, released,
        acquired, Call.releases, Call.acquires]
    | some file =>
      simp [imb_is_a_krita, hsrc, hzip, is_a_finalize, has_krita_mimetype, hopen, released,
        acquired, Call.releases, Call.acquires]

/-! ## Claims about the sniffer -/

/-- C1: an archive whose `mimetype` entry is exactly "application/x-krita" should be
recognised; on such an archive `has_krita_mimetype` and `imb_is_a_krita` return false. -/
theorem krita_marker_is_rejected :
    (has_krita_mimetype (sample_zip krita_mimetype [137, 80, 78, 71] 4)).2 = false
      ∧ (imb_is_a_krita (sample_env (sample_zip krita_mimetype [137, 80, 78, 71] 4))
          sample_mem 4).2 = Outcome.returned false := by
  decide

/-- C2: an archive whose `mimetype` entry is "application/x-other", or is empty, should be
refused; on such archives `imb_is_a_krita` returns true. -/
theorem other_marker_is_accepted :
    (imb_is_a_krita (sample_env (sample_zip other_mimetype [137, 80, 78, 71] 4))
        sample_mem 4).2 = Outcome.returned true
      ∧ (imb_is_a_krita (sample_env (sample_zip [] [137, 80, 78, 71] 4))
          sample_mem 4).2 = Outcome.returned true := by
  decide

/-- C3: when creating the archive source fails, `imb_is_a_krita` does not reach
`return is_a` with defined behaviour: after the failed call it tests the local `zip`,
which was never assigned. -/
theorem source_failure_sniff_undefined :
    imb_is_a_krita no_source_env sample_mem 4
      = ([Call.zip_source_buffer_create none], Outcome.undefined) := by
  decide

/-- C8: on the path where source creation fails, the sniffer ends in the use of the
unassigned local `zip`, while the loader, whose locals are initialised to `NULL`, closes
nothing and returns `NULL` on the same input. -/
theorem source_failure_zip_unassigned :
    (imb_is_a_krita no_source_env sample_mem 4).2 = Outcome.undefined
      ∧ imb_load_krita no_source_env sample_mem 4 0 0
          = ([Call.zip_source_buffer_create none, Call.free none], none) := by
  decide

/-- C9: for every entry stream (any content, with or without a read error), the test
`strcmp(data, expected_mimetype) == 0` on the zero-initialised buffer holds exactly when
the leading `MIMETYPE_LEN` bytes of the buffer equal the marker byte for byte; the buffer
always has `MIMETYPE_LEN + 1` defined bytes, `strcmp` examines no position beyond them,
and the buffer depends only on the leading `MIMETYPE_LEN` bytes of the entry. -/
theorem mimetype_comparison_refines_bytewise (file : ZipFile) :
    (strcmp (mimetype_data file) expected_mimetype = 0
        ↔ marker_bytes_match (mimetype_data file) = true)
      ∧ (mimetype_data file).length = MIMETYPE_LEN + 1
      ∧ strcmp_examined (mimetype_data file) expected_mimetype ≤ MIMETYPE_LEN + 1
      ∧ mimetype_data file
          = mimetype_data
              { handle := file.handle, content := file.content.take MIMETYPE_LEN,
                fault := file.fault } := by
  refine ⟨strcmp_mimetype_data_iff file, mimetype_data_length file, ?_,
    mimetype_data_leading_bytes file⟩
  rw [expected_mimetype_split]
  exact strcmp_examined_terminated_le krita_mimetype (mimetype_data file)

/-! ## The loader -/

theorem read_count_rejected_iff (r : Int) (s : Nat) :
    read_count_rejected r s = true ↔ to_uint64 (to_int32 r) ≠ s := by
  simp [read_count_rejected]

theorem read_count_small (s : Nat) (r : Int) (hs : s < 2 ^ 31) (hlo : -1 ≤ r)
    (hhi : r ≤ s) : read_count_rejected r s = false ↔ r = s := by
  have h := read_count_rejected_iff r s
  have hconv : to_uint64 (to_int32 r) = s ↔ r = s := by
    unfold to_uint64 to_int32
    omega
  cases hrej : read_count_rejected r s with
  | false =>
    have h2 : to_uint64 (to_int32 r) = s := by
      by_contra hne
      have := h.mpr hne
      simp [hrej] at this
    simpa using hconv.mp h2
  | true =>
    have h2 := h.mp hrej
    simpa using fun hrs => h2 (hconv.mpr hrs)

theorem read_count_large (s : Nat) (r : Int) (hlo : 2 ^ 31 ≤ s) (hhi : s < 2 ^ 64 - 2 ^ 31) :
    read_count_rejected r s = true := by
  rw [read_count_rejected_iff]
  unfold to_uint64 to_int32
  omega

/-- The loader once every step before the read has succeeded: the read count is checked,
and only an accepted read reaches the decoder, whose image is tagged. -/
theorem imb_load_krita_of_steps (env : Env) (mem : List Nat) (size : Nat) (flags : Int)
    (colorspace : Nat) (source : Source) (zip : Zip) (s : Nat) (file : ZipFile) (buf : Nat)
    (hsrc : env.zip_source_buffer_create mem size = some source)
    (hzip : source.archive = some zip) (hstat : zip.stat mergedimagepng_name = some s)
    (hopen : zip.fopen mergedimagepng_name = some file) (hbuf : env.malloc s = some buf) :
    imb_load_krita env mem size flags colorspace
      = if read_count_rejected (zip_fread file s).1 s then
          ([Call.zip_source_buffer_create (some source.handle),
            Call.zip_open_from_source source.handle (some zip.handle),
            Call.zip_stat zip.handle mergedimagepng_name (some s),
            Call.zip_fopen zip.handle mergedimagepng_name (some file.handle),
            Call.malloc s (some buf),
            Call.zip_fread file.handle s (zip_fread file s).1,
            Call.free (some buf), Call.zip_fclose file.handle, Call.zip_close zip.handle,
            Call.zip_source_close source.handle], none)
        else
          ([Call.zip_source_buffer_create (some source.handle),
            Call.zip_open_from_source source.handle (some zip.handle),
            Call.zip_stat zip.handle mergedimagepng_name (some s),
            Call.zip_fopen zip.handle mergedimagepng_name (some file.handle),
            Call.malloc s (some buf),
            Call.zip_fread file.handle s (zip_fread file s).1,
            Call.imb_loadpng (zip_fread file s).2 s flags colorspace,
            Call.free (some buf), Call.zip_fclose file.handle, Call.zip_close zip.handle,
            Call.zip_source_close source.handle],
           (env.imb_loadpng (zip_fread file s).2 s flags colorspace).map
             (fun imbuf => { imbuf with ftype := FileType.IMB_FTYPE_KRA })) := by
  unfold imb_load_krita
  simp only [hsrc, hzip, hstat, hopen, hbuf, load_finalize]
  by_cases hrej : read_count_rejected (zip_fread file s).1 s = true
  · simp [hrej]
  · simp only [hrej]
    cases env.imb_loadpng (zip_fread file s).2 s flags colorspace <;> simp

/-- A rejected read count gives `NULL` and no decoder call. -/
theorem imb_load_krita_of_rejected (env : Env) (mem : List Nat) (size : Nat) (flags : Int)
    (colorspace : Nat) (source : Source) (zip : Zip) (s : Nat) (file : ZipFile) (buf : Nat)
    (hsrc : env.zip_source_buffer_create mem size = some source)
    (hzip : source.archive = some zip) (hstat : zip.stat mergedimagepng_name = some s)
    (hopen : zip.fopen mergedimagepng_name = some file) (hbuf : env.malloc s = some buf)
    (hrej : read_count_rejected (zip_fread file s).1 s = true) :
    (imb_load_krita env mem size flags colorspace).2 = none
      ∧ decoder_calls (imb_load_krita env mem size flags colorspace).1 = 0 := by
  rw [imb_load_krita_of_steps env mem size flags colorspace source zip s file buf hsrc hzip
    hstat hopen hbuf]
  simp [hrej, decoder_calls, Call.is_decode]

/-- For a declared size below 2^31 and a read that returns exactly the declared size, the
decoder is called once, with the bytes read, the declared size, the flags and the
colorspace; its image comes back tagged as Krita, its refusal comes back as `NULL`. -/
theorem imb_load_krita_decodes (env : Env) (mem : List Nat) (size : Nat) (flags : Int)
    (colorspace : Nat) (source : Source) (zip : Zip) (s : Nat) (file : ZipFile) (buf : Nat)
    (hsrc : env.zip_source_buffer_create mem size = some source)
    (hzip : source.archive = some zip) (hstat : zip.stat mergedimagepng_name = some s)
    (hopen : zip.fopen mergedimagepng_name = some file) (hbuf : env.malloc s = some buf)
    (hread : (zip_fread file s).1 = s) (hs : s < 2 ^ 31) :
    (imb_load_krita env mem size flags colorspace).2
        = (env.imb_loadpng (zip_fread file s).2 s flags colorspace).map
            (fun imbuf => { imbuf with ftype := FileType.IMB_FTYPE_KRA })
      ∧ (imb_load_krita env mem size flags colorspace).1.filter Call.is_decode
          = [Call.imb_loadpng (zip_fread file s).2 s flags colorspace] := by
  have hacc : read_count_rejected (zip_fread file s).1 s = false :=
    (read_count_small s (zip_fread file s).1 hs (by omega) (by omega)).mpr hread
  rw [imb_load_krita_of_steps env mem size flags colorspace source zip s file buf hsrc hzip
    hstat hopen hbuf]
  simp [hacc, Call.is_decode]

theorem huge_png_length : huge_png.length = 2147483648 := by
  unfold huge_png
  rw [List.length_replicate]
  norm_num

theorem zip_fread_huge :
    zip_fread { handle := 4, content := huge_png, fault := none } 2147483648
      = (2147483648, huge_png) := by
  have h : huge_png.take 2147483648 = huge_png :=
    List.take_of_length_le (le_of_eq huge_png_length)
  simp only [zip_fread, h, huge_png_length]
  rfl

theorem huge_png_ne_nil : huge_png ≠ [] := by
  intro h
  have hl := huge_png_length
  rw [h] at hl
  simp at hl

/-- A failing step before the read gives `NULL` and no decoder call. -/
theorem imb_load_krita_of_step_failure (env : Env) (mem : List Nat) (size : Nat) (flags : Int)
    (colorspace : Nat) (hfail : StepFails env mem size) :
    (imb_load_krita env mem size flags colorspace).2 = none
      ∧ decoder_calls (imb_load_krita env mem size flags colorspace).1 = 0 := by
  rcases hfail with hsrc | ⟨source, hsrc, hzip⟩ | ⟨source, zip, hsrc, hzip, hstat⟩
    | ⟨source, zip, hsrc, hzip, hopen⟩ | ⟨source, zip, s, hsrc, hzip, hstat, hbuf⟩
  · simp [imb_load_krita, hsrc, load_finalize, decoder_calls, Call.is_decode]
  · simp [imb_load_krita, hsrc, hzip, load_finalize, decoder_calls, Call.is_decode]
  · simp [imb_load_krita, hsrc, hzip, hstat, load_finalize, decoder_calls, Call.is_decode]
  · cases hstat : zip.stat mergedimagepng_name with
    | none =>
      simp [imb_load_krita, hsrc, hzip, hstat, load_finalize, decoder_calls, Call.is_decode]
    | some s =>
      simp [imb_load_krita, hsrc, hzip, hstat, hopen, load_finalize, decoder_calls,
        Call.is_decode]
  · cases hopen : zip.fopen mergedimagepng_name with
    | none =>
      simp [imb_load_krita, hsrc, hzip, hstat, hopen, load_finalize, decoder_calls,
        Call.is_decode]
    | some file =>
      simp [imb_load_krita, hsrc, hzip, hstat, hopen, hbuf, load_finalize, decoder_calls,
        Call.is_decode]

/-- A returned image implies that every step before the read succeeded. -/
theorem steps_succeed_of_image (env : Env) (mem : List Nat) (size : Nat) (flags : Int)
    (colorspace : Nat) (himg : (imb_load_krita env mem size flags colorspace).2 ≠ none) :
    StepsSucceed env mem size := by
  cases hsrc : env.zip_source_buffer_create mem size with
  | none => exact absurd (by simp [imb_load_krita, hsrc]) himg
  | some source =>
    cases hzip : source.archive with
    | none => exact absurd (by simp [imb_load_krita, hsrc, hzip]) himg
    | some zip =>
      cases hstat : zip.stat mergedimagepng_name with
      | none => exact absurd (by simp [imb_load_krita, hsrc, hzip, hstat]) himg
      | some s =>
        cases hopen : zip.fopen mergedimagepng_name with
        | none => exact absurd (by simp [imb_load_krita, hsrc, hzip, hstat, hopen]) himg
        | some file =>
          cases hbuf : env.malloc s with
          | none =>
            exact absurd (by simp [imb_load_krita, hsrc, hzip, hstat, hopen, hbuf]) himg
          | some buf => exact ⟨source, zip, s, file, buf, hsrc, hzip, hstat, hopen, hbuf⟩

/-! ## Claims about the loader -/

/-- C4: a `mergedimage.png` of 2^31 bytes that stats, opens, allocates and reads back in
full (the read returns exactly the declared size), and that the decoder would accept,
should be decoded; `imb_load_krita` returns `NULL` and never calls the decoder. -/
theorem huge_entry_is_not_decoded :
    (zip_fread { handle := 4, content := huge_png, fault := none } 2147483648).1 = 2147483648
      ∧ (sample_env (sample_zip krita_mimetype huge_png 2147483648)).imb_loadpng
          huge_png 2147483648 0 0 ≠ none
      ∧ (imb_load_krita (sample_env (sample_zip krita_mimetype huge_png 2147483648))
          sample_mem 4 0 0).2 = none
      ∧ decoder_calls (imb_load_krita (sample_env (sample_zip krita_mimetype huge_png 2147483648))
          sample_mem 4 0 0).1 = 0 := by
  have hrej : read_count_rejected
      (zip_fread { handle := 4, content := huge_png, fault := none } 2147483648).1
      2147483648 = true := by
    rw [zip_fread_huge]
    exact read_count_large 2147483648 2147483648 (by norm_num) (by norm_num)
  refine ⟨by rw [zip_fread_huge], ?_, ?_⟩
  · simp [sample_env, huge_png_ne_nil]
  · exact imb_load_krita_of_rejected _ sample_mem 4 0 0
      { handle := 1, archive := some (sample_zip krita_mimetype huge_png 2147483648) }
      (sample_zip krita_mimetype huge_png 2147483648) 2147483648
      { handle := 4, content := huge_png, fault := none } 5 rfl rfl
      (by simp [sample_zip, mergedimagepng_name])
      (by simp [sample_zip, mergedimagepng_name]) rfl hrej

/-- C6: `imb_load_krita` returns `NULL` without invoking the decoder whenever a step before
the read fails (source creation, archive open, stat of `mergedimage.png`, opening the
entry, allocation of the extraction buffer); a non-`NULL` result implies that every one
of these steps succeeded. -/
theorem step_failure_gives_null (env : Env) (mem : List Nat) (size : Nat) (flags : Int)
    (colorspace : Nat) :
    (StepFails env mem size →
        (imb_load_krita env mem size flags colorspace).2 = none
          ∧ decoder_calls (imb_load_krita env mem size flags colorspace).1 = 0)
      ∧ ((imb_load_krita env mem size flags colorspace).2 ≠ none → StepsSucceed env mem size) :=
  ⟨imb_load_krita_of_step_failure env mem size flags colorspace,
    steps_succeed_of_image env mem size flags colorspace⟩

theorem step_failure_gives_null_witness :
    ((imb_load_krita (sample_env empty_zip) sample_mem 4 0 0).2 = none
        ∧ decoder_calls (imb_load_krita (sample_env empty_zip) sample_mem 4 0 0).1 = 0)
      ∧ StepsSucceed (sample_env (sample_zip krita_mimetype [137, 80, 78, 71] 4)) sample_mem 4 :=
  ⟨(step_failure_gives_null (sample_env empty_zip) sample_mem 4 0 0).1
      (Or.inr (Or.inr (Or.inl
        ⟨{ handle := 1, archive := some empty_zip }, empty_zip, rfl, rfl, rfl⟩))),
    (step_failure_gives_null (sample_env (sample_zip krita_mimetype [137, 80, 78, 71] 4))
      sample_mem 4 0 0).2 (by decide)⟩

/-- C7: on every exit path of `imb_load_krita` the resources released are exactly the
resources acquired, each once, in the reverse of their acquisition order, which is the
order extraction buffer, entry stream, archive handle, archive source; nothing that was
not acquired is released, and the clean-up calls come last. -/
theorem load_releases_what_it_acquired (env : Env) (mem : List Nat) (size : Nat) (flags : Int)
    (colorspace : Nat) :
    released (imb_load_krita env mem size flags colorspace).1
        = (acquired (imb_load_krita env mem size flags colorspace).1).reverse
      ∧ List.Pairwise (fun a b => a < b)
          ((released (imb_load_krita env mem size flags colorspace).1).map Resource.rank)
      ∧ cleanup_last (imb_load_krita env mem size flags colorspace).1 = true := by
  cases hsrc : env.zip_source_buffer_create mem size with
  | none =>
    simp [imb_load_krita, hsrc, load_finalize, released, acquired, Call.releases,
      Call.acquires, cleanup_last, Call.is_cleanup]
  | some source =>
    cases hzip : source.archive with
    | none =>
      simp [imb_load_krita, hsrc, hzip, load_finalize, released, acquired, Call.releases,
        Call.acquires, cleanup_last, Call.is_cleanup, Resource.rank]
    | some zip =>
      cases hstat : zip.stat mergedimagepng_name with
      | none =>
        simp [imb_load_krita, hsrc, hzip, hstat, load_finalize, released, acquired,
          Call.releases, Call.acquires, cleanup_last, Call.is_cleanup, Resource.rank]
      | some s =>
        cases hopen : zip.fopen mergedimagepng_name with
        | none =>
          simp [imb_load_krita, hsrc, hzip, hstat, hopen, load_finalize, released, acquired,
            Call.releases, Call.acquires, cleanup_last, Call.is_cleanup, Resource.rank]
        | some file =>
          cases hbuf : env.malloc s with
          | none =>
            simp [imb_load_krita, hsrc, hzip, hstat, hopen, hbuf, load_finalize, released,
              acquired, Call.releases, Call.acquires, cleanup_last, Call.is_cleanup,
              Resource.rank]
          | some buf =>
            rw [imb_load_krita_of_steps env mem size flags colorspace source zip s file buf
              hsrc hzip hstat hopen hbuf]
            by_cases hrej : read_count_rejected (zip_fread file s).1 s = true
            · simp [hrej, released, acquired, Call.releases, Call.acquires, cleanup_last,
                Call.is_cleanup, Resource.rank]
            · simp [hrej, released, acquired, Call.releases, Call.acquires, cleanup_last,
                Call.is_cleanup, Resource.rank]

/-- C10: the read count is stored in a 32-bit `int` before it is compared, as an unsigned
64-bit value, with the declared size.  For a declared size below 2^31 and a count between
-1 and the size, the check passes exactly when the count equals the size.  For a declared
size from 2^31 up to (not including) 2^64 - 2^31 the check fails for every count, and
`imb_load_krita` returns `NULL` whatever the read returns. -/
theorem read_count_stored_as_int (s : Nat) (r : Int) :
    (s < 2 ^ 31 → -1 ≤ r → r ≤ s → (read_count_rejected r s = false ↔ r = s))
      ∧ (2 ^ 31 ≤ s → s < 2 ^ 64 - 2 ^ 31 →
          read_count_rejected r s = true
            ∧ ∀ (env : Env) (mem : List Nat) (size : Nat) (flags : Int) (colorspace : Nat)
                (source : Source) (zip : Zip) (file : ZipFile) (buf : Nat),
                env.zip_source_buffer_create mem size = some source →
                source.archive = some zip →
                zip.stat mergedimagepng_name = some s →
                zip.fopen mergedimagepng_name = some file →
                env.malloc s = some buf →
                (imb_load_krita env mem size flags colorspace).2 = none) := by
  refine ⟨read_count_small s r, fun hlo hhi => ⟨read_count_large s r hlo hhi, ?_⟩⟩
  intro env mem size flags colorspace source zip file buf hsrc hzip hstat hopen hbuf
  exact (imb_load_krita_of_rejected env mem size flags colorspace source zip s file buf hsrc
    hzip hstat hopen hbuf (read_count_large s _ hlo hhi)).1

theorem read_count_stored_as_int_witness :
    (read_count_rejected 4 4 = false ↔ (4 : Int) = ((4 : Nat) : Int))
      ∧ read_count_rejected 2147483648 2147483648 = true
      ∧ (imb_load_krita (sample_env (sample_zip krita_mimetype huge_png 2147483648))
          sample_mem 4 0 0).2 = none :=
  ⟨(read_count_stored_as_int 4 4).1 (by norm_num) (by norm_num) (by norm_num),
    ((read_count_stored_as_int 2147483648 2147483648).2 (by norm_num) (by norm_num)).1,
    ((read_count_stored_as_int 2147483648 2147483648).2 (by norm_num) (by norm_num)).2
      (sample_env (sample_zip krita_mimetype huge_png 2147483648)) sample_mem 4 0 0
      { handle := 1, archive := some (sample_zip krita_mimetype huge_png 2147483648) }
      (sample_zip krita_mimetype huge_png 2147483648)
      { handle := 4, content := huge_png, fault := none } 5 rfl rfl
      (by simp [sample_zip, mergedimagepng_name])
      (by simp [sample_zip, mergedimagepng_name]) rfl⟩

end Kra
